import Mathlib

/-!
Verification of the candidate scoring and ranking engine of the GlobalAI
recruitment pipeline, as a shallow embedding of the Python sources
(`src/candidate_profile_evaluator.py`, `src/candidate_evaluator.py`,
`src/candidate_evaluation_runner.py`, `src/recruitment_pipeline.py`).

Modelling conventions:
* Python floats are modelled as rationals; the core never performs
  arithmetic on scores (it passes the oracle values through and compares
  them when sorting), so the rational model is order- and value-faithful.
* File IO is modelled by explicit inputs: a directory listing is a
  `List FsEntry` (in the incidental order `iterdir` enumerates it), the
  whole candidate store is a function from candidate id to an optional
  listing, and each entry carries the outcome every loader would obtain
  when reading it (`Except`, with `.error msg` modelling a raised
  exception whose `str`-form is `msg`).
* The external LLM call plus the parse cascade of `evaluate_candidate`
  is modelled as an oracle function from the combined candidate text and
  the requirements to `Except String CandidateEvaluation`: the Python
  code either returns exactly the evaluation the reply parses to, or
  raises, which the `Except` captures.
* Raised Python exceptions are modelled as `Except.error`; a Lean model
  function being total corresponds to the Python function not raising.
-/

deriving instance DecidableEq for Except

namespace GlobalAI

/-! ### Data model (Pydantic models of candidate_profile_evaluator.py) -/

/-- One weighted requirement feature, `{name, weight}`. -/
structure Feature where
  name : String
  weight : ℚ
deriving DecidableEq

/-- The requirements dict `{features: [...]}` built by
`convert_weights_to_requirements`. -/
structure Requirements where
  features : List Feature
deriving DecidableEq

/-- Pydantic `FeatureScore` model: one scored feature. -/
structure FeatureScore where
  name : String
  weight : ℚ
  score : ℚ
deriving DecidableEq

/-- Pydantic `CandidateEvaluation` model: per-feature scores plus the
oracle-reported affinity score. -/
structure CandidateEvaluation where
  feature_scores : List FeatureScore
  affinity_score : ℚ
deriving DecidableEq

/-! ### Filesystem model -/

/-- One directory entry as `Path.iterdir` yields it.  The three read
fields record the outcome each loader would obtain on this entry:
`pdfRead` the per-page `extract_text` results of `PyPDF2`, `jsonRead`
the `json.dumps(json.load(f), indent=2)` pretty text, `textRead` the
`f.read()` content; `.error msg` models the read or parse raising an
exception with message `msg`.  Only the field matching the file
extension is ever consulted by the scan. -/
structure FsEntry where
  name : String
  isFile : Bool
  pdfRead : Except String (List String)
  jsonRead : Except String String
  textRead : Except String String
deriving DecidableEq

/-- The candidate store: candidate id to directory listing, `none` when
the directory `data/candidate_<id>` does not exist. -/
def CandidateStore := Nat → Option (List FsEntry)

/-- Leading-whitespace removal on a character list. -/
def pyStripLeft : List Char → List Char
  | [] => []
  | c :: cs => if c.isWhitespace then pyStripLeft cs else c :: cs

/-- Python `str.strip()`: drop whitespace from both ends. -/
def pyStrip (s : String) : String :=
  String.mk (((pyStripLeft s.toList).reverse |> pyStripLeft).reverse)

/-- Python `str.lower()` on the alphabets involved here: lower-case
every character. -/
def pyLower (s : String) : String := String.mk (s.toList.map Char.toLower)

/-- `pathlib.Path.suffix`: the extension of the final component,
`name[i:]` for the last dot index `i` when `0 < i < len(name) - 1`,
otherwise the empty string. -/
def pySuffix (name : String) : String :=
  let cs := name.toList
  match ((List.range cs.length).filter fun i => cs.getD i ' ' == '.').getLast? with
  | none => ""
  | some i => if 0 < i ∧ i + 1 < cs.length then String.mk (cs.drop i) else ""

/-! ### Document loaders (candidate_profile_evaluator.py lines 57-111) -/

/-- `load_pdf_text`: joins the page texts with newlines and strips, or
returns the inline error string when reading raised. -/
def load_pdf_text (name : String) (pdfRead : Except String (List String)) : String :=
  match pdfRead with
  | .ok pages => pyStrip (String.join (pages.map fun p => p ++ "\n"))
  | .error e => "Error reading PDF " ++ name ++ ": " ++ e

/-- `load_json_text`: the pretty-printed JSON, or the inline error
string when reading or decoding raised. -/
def load_json_text (name : String) (jsonRead : Except String String) : String :=
  match jsonRead with
  | .ok pretty => pretty
  | .error e => "Error reading JSON " ++ name ++ ": " ++ e

/-- `load_text_file`: the stripped file content, or the inline error
string when reading raised. -/
def load_text_file (name : String) (textRead : Except String String) : String :=
  match textRead with
  | .ok content => pyStrip content
  | .error e => "Error reading text file " ++ name ++ ": " ++ e

/-! ### Document scan (candidate_profile_evaluator.py lines 114-182) -/

inductive DocType where
  | PDF
  | JSON
  | TEXT
deriving DecidableEq

/-- One entry of the `all_content` list: `{filename, type, content}`. -/
structure Doc where
  filename : String
  type : DocType
  content : String
deriving DecidableEq

/-- The dictionary returned by `scan_candidate_documents`, with keys
`pdfs`, `jsons`, `texts` (filename-content pairs) and `all_content`. -/
structure Documents where
  pdfs : List (String × String)
  jsons : List (String × String)
  texts : List (String × String)
  all_content : List Doc
deriving DecidableEq

/-- The body of the scan loop for one directory entry. -/
def scanStep (docs : Documents) (e : FsEntry) : Documents :=
  if e.isFile then
    let sfx := pyLower (pySuffix e.name)
    if sfx == ".pdf" then
      let content := load_pdf_text e.name e.pdfRead
      { docs with pdfs := docs.pdfs ++ [(e.name, content)],
                  all_content := docs.all_content ++ [⟨e.name, .PDF, content⟩] }
    else if sfx == ".json" then
      let content := load_json_text e.name e.jsonRead
      { docs with jsons := docs.jsons ++ [(e.name, content)],
                  all_content := docs.all_content ++ [⟨e.name, .JSON, content⟩] }
    else if sfx == ".txt" || sfx == ".md" || sfx == ".rtf" then
      let content := load_text_file e.name e.textRead
      { docs with texts := docs.texts ++ [(e.name, content)],
                  all_content := docs.all_content ++ [⟨e.name, .TEXT, content⟩] }
    else docs
  else docs

/-- `scan_candidate_documents`: empty result when the directory does not
exist, otherwise one pass over the listing in enumeration order. -/
def scan_candidate_documents (dir : Option (List FsEntry)) : Documents :=
  match dir with
  | none => ⟨[], [], [], []⟩
  | some entries => entries.foldl scanStep ⟨[], [], [], []⟩

/-! ### Formatting (candidate_profile_evaluator.py lines 185-221) -/

/-- `format_candidate_information`: the evaluator-ready text blob, built
section by section exactly as the Python list of formatted sections
joined with newlines. -/
def format_candidate_information (documents : Documents) : String :=
  if documents.all_content.isEmpty then
    "No candidate documents found in the directory."
  else
    let pdfSection : List String :=
      if documents.pdfs.isEmpty then []
      else "=== PDF Documents (CVs, Resumes, etc.) ===" ::
        (documents.pdfs.map fun p => "\n--- " ++ p.1 ++ " ---\n" ++ p.2) ++ [""]
    let jsonSection : List String :=
      if documents.jsons.isEmpty then []
      else "=== JSON Documents (LinkedIn, Portfolio, etc.) ===" ::
        (documents.jsons.map fun p => "\n--- " ++ p.1 ++ " ---\n" ++ p.2) ++ [""]
    let textSection : List String :=
      if documents.texts.isEmpty then []
      else "=== Text Documents ===" ::
        (documents.texts.map fun p => "\n--- " ++ p.1 ++ " ---\n" ++ p.2) ++ [""]
    String.intercalate "\n" (pdfSection ++ jsonSection ++ textSection)

/-! ### Candidate scorer (candidate_profile_evaluator.py lines 224-346) -/

/-- The error taxonomy of `evaluate_candidate`: the `ValueError` raised
when no documents are found, and any failure of the LLM call or of the
parse cascade on its reply. -/
inductive EvalError where
  | noDocuments (dir : String)
  | oracleInvalid (msg : String)
deriving DecidableEq

/-- The scoring oracle: the LLM call plus the parse cascade, as a
function from the combined candidate text and the requirements to the
parsed `CandidateEvaluation` (or a failure).  The Python code returns
exactly the evaluation the reply parses to, unmodified. -/
def Oracle := String → Requirements → Except String CandidateEvaluation

/-- The directory path mentioned in the no-documents error message. -/
def candidateDirName (ID : Nat) : String := "data/candidate_" ++ toString ID

/-- `evaluate_candidate`: scan the candidate directory, fail when no
documents were found, otherwise hand the formatted text and the
requirements to the oracle and return its parsed reply unchanged. -/
def evaluate_candidate (ID : Nat) (requirements : Requirements) (store : CandidateStore)
    (oracle : Oracle) : Except EvalError CandidateEvaluation :=
  let documents := scan_candidate_documents (store ID)
  if documents.all_content.isEmpty then
    .error (.noDocuments (candidateDirName ID))
  else
    let combined_text := format_candidate_information documents
    match oracle combined_text requirements with
    | .ok result => .ok result
    | .error e => .error (.oracleInvalid e)

/-! ### Batch evaluator (candidate_evaluator.py lines 106-206) -/

/-- One value of the persisted `candidates` map: the dict
`{candidate_id, feature_scores, affinity_score}` written to JSON. -/
structure PersistedCandidate where
  candidate_id : Nat
  feature_scores : List FeatureScore
  affinity_score : ℚ
deriving DecidableEq

/-- The persisted `metadata` dict. -/
structure BatchMetadata where
  evaluation_date : String
  total_candidates : Nat
  requirements : Requirements
deriving DecidableEq

/-- The persisted evaluation batch `{metadata, candidates}`.  The
`candidates` map is kept as an association list in JSON insertion
order, which is the order the Python dict preserves. -/
structure EvaluationBatch where
  metadata : BatchMetadata
  candidates : List (String × PersistedCandidate)
deriving DecidableEq

/-- Python dict assignment `d[k] = v` on an insertion-ordered
association list: overwrite in place when the key exists, else append. -/
def dictInsert (m : List (Nat × CandidateEvaluation)) (k : Nat) (v : CandidateEvaluation) :
    List (Nat × CandidateEvaluation) :=
  if m.any fun p => p.1 == k then
    m.map fun p => if p.1 == k then (k, v) else p
  else m ++ [(k, v)]

/-- The body of the evaluation loop for one candidate id: the
`try/except` either stores the evaluation in `all_profiles` or catches
the exception and continues with the accumulator unchanged. -/
def evalStep (requirements : Requirements) (store : CandidateStore) (oracle : Oracle)
    (acc : List (Nat × CandidateEvaluation)) (candidate_id : Nat) :
    List (Nat × CandidateEvaluation) :=
  match evaluate_candidate candidate_id requirements store oracle with
  | .ok evaluation => dictInsert acc candidate_id evaluation
  | .error _ => acc

/-- The serialization of one evaluation into the persisted dict: the
field-by-field copy of the Pydantic model performed when building
`profiles_data["candidates"]`. -/
def persistCandidate (candidate_id : Nat) (evaluation : CandidateEvaluation) :
    PersistedCandidate where
  candidate_id := candidate_id
  feature_scores := evaluation.feature_scores.map fun f => ⟨f.name, f.weight, f.score⟩
  affinity_score := evaluation.affinity_score

/-- `evaluate_all_candidates`: iterate the candidate ids in order,
isolate per-candidate failures, then build and persist the batch whose
`total_candidates` is the size of `all_profiles`.  The returned value
is the document written (whole-file overwrite) to the output path; the
function is total, so the batch is always produced, whatever the store
and the oracle do. -/
def evaluate_all_candidates (candidate_ids : List Nat) (requirements : Requirements)
    (store : CandidateStore) (oracle : Oracle) (evaluation_date : String) :
    EvaluationBatch :=
  let all_profiles := candidate_ids.foldl (evalStep requirements store oracle) []
  { metadata := { evaluation_date := evaluation_date
                  total_candidates := all_profiles.length
                  requirements := requirements }
    candidates := all_profiles.map fun p => (toString p.1, persistCandidate p.1 p.2) }

/-! ### Ranker (candidate_evaluator.py lines 209-244) -/

/-- The descending-affinity comparison used by the sort:
`affinityGE a b` holds when `a` sorts no later than `b`. -/
def affinityGE (a b : PersistedCandidate) : Prop :=
  b.affinity_score ≤ a.affinity_score

instance : DecidableRel affinityGE := fun a b =>
  inferInstanceAs (Decidable (b.affinity_score ≤ a.affinity_score))

instance : IsTotal PersistedCandidate affinityGE :=
  ⟨fun a b => le_total b.affinity_score a.affinity_score⟩

instance : IsTrans PersistedCandidate affinityGE :=
  ⟨fun _ _ _ hab hbc => le_trans hbc hab⟩

/-- `rank_candidates_by_affinity`: read the persisted batch, take the
values of the `candidates` map in insertion order, and sort them by
affinity score descending with Python sorted, a stable sort: modelled
by the stable `List.insertionSort`, which computes the same output as
every stable sort for this comparison.  The model is a pure function of
the persisted value, so it cannot mutate the batch and two calls on the
same batch agree definitionally. -/
def rank_candidates_by_affinity (batch : EvaluationBatch) : List PersistedCandidate :=
  (batch.candidates.map Prod.snd).insertionSort affinityGE

/-! ### Requirements loading (candidate_evaluation_runner.py,
recruitment_pipeline.py, job_requirements_analyzer.py) -/

/-- The fields of the persisted job-requirements JSON that the weight
extraction consults: `weights` and `weights_dict`, each `none` when the
key is absent.  `save_job_analysis` writes `weights` only; no writer in
the repository ever produces a `weights_dict` key. -/
structure JobAnalysis where
  weights : Option (List (String × ℚ))
  weights_dict : Option (List (String × ℚ))
deriving DecidableEq

/-- `convert_weights_to_requirements`: wrap each name-weight pair into
a feature dict. -/
def convert_weights_to_requirements (weights : List (String × ℚ)) : Requirements :=
  ⟨weights.map fun p => ⟨p.1, p.2⟩⟩

def noWeightsMsg : String := "No weights found in job requirements file"

/-- The weight extraction of `run_candidate_evaluation`:
`job_analysis.get("weights_dict")` followed by the falsiness check
`if not weights: raise ValueError(...)`.  A `weights` key alone is
never consulted and nothing is reconstructed from it. -/
def runnerExtractWeights (job_analysis : JobAnalysis) :
    Except String (List (String × ℚ)) :=
  match job_analysis.weights_dict with
  | some w => if w.isEmpty then .error noWeightsMsg else .ok w
  | none => .error noWeightsMsg

/-- The weight extraction of `run_full_pipeline`:
`job_analysis["weights"]`, a `KeyError` when the key is absent. -/
def pipelineExtractWeights (job_analysis : JobAnalysis) :
    Except String (List (String × ℚ)) :=
  match job_analysis.weights with
  | some w => .ok w
  | none => .error "KeyError: weights"

/-- `run_candidate_evaluation` restricted to its core path once the job
file has been read into `job_analysis`: extract the weights, reject an
empty candidate list, evaluate the batch and rank it from the persisted
document. -/
def run_candidate_evaluation (job_analysis : JobAnalysis) (candidate_ids : List Nat)
    (store : CandidateStore) (oracle : Oracle) (evaluation_date : String) :
    Except String (EvaluationBatch × List PersistedCandidate) :=
  match runnerExtractWeights job_analysis with
  | .error e => .error e
  | .ok w =>
    let requirements := convert_weights_to_requirements w
    if candidate_ids.isEmpty then .error "No candidates found in the data directory!"
    else
      let batch := evaluate_all_candidates candidate_ids requirements store oracle
        evaluation_date
      .ok (batch, rank_candidates_by_affinity batch)

/-- `run_full_pipeline` on its load-existing-analysis branch, from the
loaded `job_analysis` onwards: identical to the runner except that the
weights come from the `weights` key. -/
def run_full_pipeline (job_analysis : JobAnalysis) (candidate_ids : List Nat)
    (store : CandidateStore) (oracle : Oracle) (evaluation_date : String) :
    Except String (EvaluationBatch × List PersistedCandidate) :=
  match pipelineExtractWeights job_analysis with
  | .error e => .error e
  | .ok w =>
    let requirements := convert_weights_to_requirements w
    if candidate_ids.isEmpty then .error "No candidates found in the data directory!"
    else
      let batch := evaluate_all_candidates candidate_ids requirements store oracle
        evaluation_date
      .ok (batch, rank_candidates_by_affinity batch)

/-! ### Statement vocabulary taken from the specification -/

/-- Whether `evaluate_candidate` succeeds for this id. -/
def evalOk (requirements : Requirements) (store : CandidateStore) (oracle : Oracle)
    (candidate_id : Nat) : Bool :=
  match evaluate_candidate candidate_id requirements store oracle with
  | .ok _ => true
  | .error _ => false

/-- The entry `all_profiles` would gain for this id, when any. -/
def evalsTo (requirements : Requirements) (store : CandidateStore) (oracle : Oracle)
    (candidate_id : Nat) : Option (Nat × CandidateEvaluation) :=
  match evaluate_candidate candidate_id requirements store oracle with
  | .ok evaluation => some (candidate_id, evaluation)
  | .error _ => none

/-- A directory entry the scan recognizes: a file whose lower-cased
suffix is one of `.pdf`, `.json`, `.txt`, `.md`, `.rtf`. -/
def recognizedEntry (e : FsEntry) : Bool :=
  e.isFile &&
    (let sfx := pyLower (pySuffix e.name)
     sfx == ".pdf" || sfx == ".json" || sfx == ".txt" || sfx == ".md" || sfx == ".rtf")

/-- The `all_content` entry one directory entry contributes, when any. -/
def entryDoc (e : FsEntry) : Option Doc :=
  if e.isFile then
    let sfx := pyLower (pySuffix e.name)
    if sfx == ".pdf" then some ⟨e.name, .PDF, load_pdf_text e.name e.pdfRead⟩
    else if sfx == ".json" then some ⟨e.name, .JSON, load_json_text e.name e.jsonRead⟩
    else if sfx == ".txt" || sfx == ".md" || sfx == ".rtf" then
      some ⟨e.name, .TEXT, load_text_file e.name e.textRead⟩
    else none
  else none

/-- The `pdfs` entry one directory entry contributes, when any. -/
def entryPdf (e : FsEntry) : Option (String × String) :=
  if e.isFile then
    let sfx := pyLower (pySuffix e.name)
    if sfx == ".pdf" then some (e.name, load_pdf_text e.name e.pdfRead) else none
  else none

/-- The `jsons` entry one directory entry contributes, when any. -/
def entryJson (e : FsEntry) : Option (String × String) :=
  if e.isFile then
    let sfx := pyLower (pySuffix e.name)
    if sfx == ".pdf" then none
    else if sfx == ".json" then some (e.name, load_json_text e.name e.jsonRead) else none
  else none

/-- The `texts` entry one directory entry contributes, when any. -/
def entryText (e : FsEntry) : Option (String × String) :=
  if e.isFile then
    let sfx := pyLower (pySuffix e.name)
    if sfx == ".pdf" then none
    else if sfx == ".json" then none
    else if sfx == ".txt" || sfx == ".md" || sfx == ".rtf" then
      some (e.name, load_text_file e.name e.textRead)
    else none
  else none

/-- Bounds check of P1, as the specification words it: affinity and
every feature score within `[0, 1]`. -/
def withinBounds (evaluation : CandidateEvaluation) : Bool :=
  decide (0 ≤ evaluation.affinity_score) && decide (evaluation.affinity_score ≤ 1) &&
    evaluation.feature_scores.all fun f => decide (0 ≤ f.score) && decide (f.score ≤ 1)

/-- The weighted mean of P2, as the specification words it:
`Σ(score_i * weight_i) / Σ(weight_i)`. -/
def weightedMean (scores : List FeatureScore) : ℚ :=
  (scores.map fun f => f.score * f.weight).sum / (scores.map fun f => f.weight).sum

/-! ### Concrete inputs for the scenario instances -/

/-- The requirements of Scenario A: Python weight 0.6, Leadership 0.4. -/
def reqA : Requirements := ⟨[⟨"Python", mkRat 3 5⟩, ⟨"Leadership", mkRat 2 5⟩]⟩

/-- A readable text document. -/
def cvEntry : FsEntry := ⟨"cv.txt", true, .error "x", .error "x", .ok "CV text"⟩

/-- A store where the directory of candidate 2 is absent and every
other candidate has one readable text document. -/
def storeSkips2 : CandidateStore := fun i => if i = 2 then none else some [cvEntry]

/-- A store where every candidate has one readable text document. -/
def storeOne : CandidateStore := fun _ => some [cvEntry]

/-- A well-formed evaluation. -/
def evalHalf : CandidateEvaluation := ⟨[⟨"Python", mkRat 1 2, mkRat 1 2⟩], mkRat 1 2⟩

/-- An oracle always replying with `evalHalf`. -/
def oracleConst : Oracle := fun _ _ => .ok evalHalf

/-- An oracle reply with affinity 1.5 and a feature score 2.0: nothing
in the source prevents it from being parsed and returned. -/
def outOfBoundsEval : CandidateEvaluation :=
  ⟨[⟨"Python", mkRat 1 2, mkRat 2 1⟩], mkRat 3 2⟩

/-- An in-bounds oracle reply. -/
def goodEval : CandidateEvaluation := ⟨[⟨"Python", mkRat 3 5, mkRat 9 10⟩], mkRat 9 10⟩

/-- An oracle reply whose reported affinity 0.1 disagrees with the
weighted mean 0.74 of its own feature scores. -/
def inconsistentEval : CandidateEvaluation :=
  ⟨[⟨"Python", mkRat 3 5, mkRat 9 10⟩, ⟨"Leadership", mkRat 2 5, mkRat 1 2⟩], mkRat 1 10⟩

/-- The Scenario A reply with the affinity computed correctly. -/
def scenarioAEval : CandidateEvaluation :=
  ⟨[⟨"Python", mkRat 3 5, mkRat 9 10⟩, ⟨"Leadership", mkRat 2 5, mkRat 1 2⟩], mkRat 37 50⟩

/-- A persisted candidate with no feature detail. -/
def pcX (i : Nat) (a : ℚ) : PersistedCandidate := ⟨i, [], a⟩

/-- The Scenario B batch, candidates map in ascending-id insertion
order: 1 and 2 at affinity 0.74, 3 at 0.91. -/
def scenarioAscB : EvaluationBatch :=
  ⟨⟨"d", 3, ⟨[]⟩⟩,
   [("1", pcX 1 (mkRat 37 50)), ("2", pcX 2 (mkRat 37 50)), ("3", pcX 3 (mkRat 91 100))]⟩

/-- The same Scenario B candidates with the tied entries inserted in
the order 2 then 1. -/
def scenarioDescB : EvaluationBatch :=
  ⟨⟨"d", 3, ⟨[]⟩⟩,
   [("2", pcX 2 (mkRat 37 50)), ("1", pcX 1 (mkRat 37 50)), ("3", pcX 3 (mkRat 91 100))]⟩

/-- Two readable text documents with distinct names and contents. -/
def entAlpha : FsEntry := ⟨"a.txt", true, .error "x", .error "x", .ok "Alpha"⟩

/-- See `entAlpha`. -/
def entBeta : FsEntry := ⟨"b.txt", true, .error "x", .error "x", .ok "Beta"⟩

/-- A job-requirements document carrying the feature weights only under
the `weights` key, the shape `save_job_analysis` actually writes. -/
def jaWeightsOnly : JobAnalysis :=
  ⟨some [("Python", mkRat 3 5), ("Leadership", mkRat 2 5)], none⟩

/-! ### Helper lemmas -/

theorem toList_append_filterMap {α β : Type} (f : α → Option β) (x : α) (l : List α) :
    (f x).toList ++ l.filterMap f = (x :: l).filterMap f := by
  cases h : f x <;> simp [List.filterMap_cons, h]

/-- One scan-loop step appends to each field exactly the contribution
of the entry processed. -/
theorem scanStep_spec (acc : Documents) (e : FsEntry) :
    scanStep acc e =
      ⟨acc.pdfs ++ (entryPdf e).toList, acc.jsons ++ (entryJson e).toList,
       acc.texts ++ (entryText e).toList, acc.all_content ++ (entryDoc e).toList⟩ := by
  cases acc
  simp only [scanStep, entryPdf, entryJson, entryText, entryDoc]
  cases e.isFile <;> split_ifs <;> simp

theorem scan_foldl_spec : ∀ (entries : List FsEntry) (acc : Documents),
    entries.foldl scanStep acc =
      ⟨acc.pdfs ++ entries.filterMap entryPdf,
       acc.jsons ++ entries.filterMap entryJson,
       acc.texts ++ entries.filterMap entryText,
       acc.all_content ++ entries.filterMap entryDoc⟩
  | [], acc => by cases acc; simp
  | e :: es, acc => by
    rw [List.foldl_cons, scan_foldl_spec es, scanStep_spec]
    simp only [← toList_append_filterMap]
    simp [List.append_assoc]

/-- The scan of an existing directory, characterized field by field:
each list is the per-type contribution of the entries in enumeration
order. -/
theorem scan_some_spec (entries : List FsEntry) :
    scan_candidate_documents (some entries) =
      ⟨entries.filterMap entryPdf, entries.filterMap entryJson,
       entries.filterMap entryText, entries.filterMap entryDoc⟩ := by
  simpa [scan_candidate_documents] using scan_foldl_spec entries ⟨[], [], [], []⟩

theorem entryDoc_isSome (e : FsEntry) : (entryDoc e).isSome = recognizedEntry e := by
  simp only [entryDoc, recognizedEntry]
  cases e.isFile <;> split_ifs <;> simp_all

theorem entryDoc_eq_none_iff (e : FsEntry) :
    entryDoc e = none ↔ recognizedEntry e = false := by
  rw [← entryDoc_isSome]
  cases entryDoc e <;> simp

theorem filterMap_entryDoc_length : ∀ es : List FsEntry,
    (es.filterMap entryDoc).length = (es.filter recognizedEntry).length
  | [] => rfl
  | e :: es => by
    have h := entryDoc_isSome e
    cases hd : entryDoc e <;> cases hr : recognizedEntry e <;>
      simp_all [List.filterMap_cons, List.filter_cons, filterMap_entryDoc_length es]

/-- The evaluation loop over duplicate-free ids, characterized: each id
whose evaluation succeeds appends its entry, each failing id is
skipped. -/
theorem foldl_evalStep_eq (requirements : Requirements) (store : CandidateStore)
    (oracle : Oracle) :
    ∀ (ids : List Nat) (acc : List (Nat × CandidateEvaluation)),
      ids.Nodup → (∀ i ∈ ids, (acc.any fun p => p.1 == i) = false) →
      ids.foldl (evalStep requirements store oracle) acc
        = acc ++ ids.filterMap (evalsTo requirements store oracle)
  | [], acc, _, _ => by simp
  | i :: ids, acc, hnd, hacc => by
    rw [List.foldl_cons]
    obtain ⟨hi, hnd2⟩ := List.nodup_cons.mp hnd
    have hacci : (acc.any fun p => p.1 == i) = false := hacc i (List.mem_cons_self i ids)
    cases hev : evaluate_candidate i requirements store oracle with
    | ok ev =>
      have hstep : evalStep requirements store oracle acc i = acc ++ [(i, ev)] := by
        simp [evalStep, hev, dictInsert, hacci]
      have hrest : ∀ j ∈ ids, ((acc ++ [(i, ev)]).any fun p => p.1 == j) = false := by
        intro j hj
        have hne : i ≠ j := fun h => hi (h ▸ hj)
        have h1 := hacc j (List.mem_cons_of_mem _ hj)
        simp [List.any_append, h1, hne]
      rw [hstep,
        foldl_evalStep_eq requirements store oracle ids (acc ++ [(i, ev)]) hnd2 hrest]
      simp [List.filterMap_cons, evalsTo, hev]
    | error err =>
      have hstep : evalStep requirements store oracle acc i = acc := by
        simp [evalStep, hev]
      rw [hstep, foldl_evalStep_eq requirements store oracle ids acc hnd2
        fun j hj => hacc j (List.mem_cons_of_mem _ hj)]
      simp [List.filterMap_cons, evalsTo, hev]

theorem filterMap_evalsTo_fst (requirements : Requirements) (store : CandidateStore)
    (oracle : Oracle) (ids : List Nat) :
    (ids.filterMap (evalsTo requirements store oracle)).map Prod.fst
      = ids.filter (evalOk requirements store oracle) := by
  induction ids with
  | nil => rfl
  | cons i ids ih =>
    cases hev : evaluate_candidate i requirements store oracle <;>
      simp [List.filterMap_cons, List.filter_cons, evalsTo, evalOk, hev, ih]

/-- Success of `evaluate_candidate`, characterized: documents were
found and the result is exactly the parsed oracle reply on the
formatted text. -/
theorem evaluate_candidate_ok_iff (ID : Nat) (requirements : Requirements)
    (store : CandidateStore) (oracle : Oracle) (ev : CandidateEvaluation) :
    evaluate_candidate ID requirements store oracle = .ok ev ↔
      ((scan_candidate_documents (store ID)).all_content.isEmpty = false ∧
        oracle (format_candidate_information (scan_candidate_documents (store ID)))
            requirements = .ok ev) := by
  rw [evaluate_candidate]
  cases hempty : (scan_candidate_documents (store ID)).all_content.isEmpty
  · cases ho : oracle (format_candidate_information (scan_candidate_documents (store ID)))
        requirements <;> simp [hempty, ho]
  · simp [hempty]

/-- The no-documents failure of `evaluate_candidate`, characterized:
it happens exactly when the scan found nothing. -/
theorem evaluate_candidate_noDocs_iff (ID : Nat) (requirements : Requirements)
    (store : CandidateStore) (oracle : Oracle) :
    evaluate_candidate ID requirements store oracle
        = .error (.noDocuments (candidateDirName ID)) ↔
      (scan_candidate_documents (store ID)).all_content.isEmpty = true := by
  rw [evaluate_candidate]
  cases hempty : (scan_candidate_documents (store ID)).all_content.isEmpty
  · cases ho : oracle (format_candidate_information (scan_candidate_documents (store ID)))
        requirements <;> simp [hempty, ho]
  · simp [hempty]

/-! ### Claim theorems -/

/-- Claim C1: for every duplicate-free list of candidate ids and every
requirements dict, `evaluate_all_candidates` is total (the model
returns the persisted batch for every store and oracle, so no failure
propagates): a candidate whose evaluation fails is omitted from the
candidates map, every candidate is still attempted in order (the keys
are exactly the succeeding ids, in input order, as strings), and
`metadata.total_candidates` equals the number of candidates that
succeeded, not the input count. -/
theorem batch_isolates_per_candidate_failures (candidate_ids : List Nat)
    (hnodup : candidate_ids.Nodup) (requirements : Requirements) (store : CandidateStore)
    (oracle : Oracle) (evaluation_date : String) :
    (evaluate_all_candidates candidate_ids requirements store oracle
          evaluation_date).candidates.map Prod.fst
      = (candidate_ids.filter (evalOk requirements store oracle)).map toString ∧
    (evaluate_all_candidates candidate_ids requirements store oracle
          evaluation_date).metadata.total_candidates
      = (candidate_ids.filter (evalOk requirements store oracle)).length := by
  have hfold := foldl_evalStep_eq requirements store oracle candidate_ids [] hnodup
    (by simp)
  have hfst := filterMap_evalsTo_fst requirements store oracle candidate_ids
  constructor
  · simp only [evaluate_all_candidates, hfold, List.nil_append, List.map_map]
    rw [← hfst, List.map_map]
    rfl
  · simp only [evaluate_all_candidates, hfold, List.nil_append]
    rw [← hfst, List.length_map]

/-- Witness for C1 at the P4 scenario: ids `[1, 2, 3]` where the
directory of candidate 2 is absent, so its evaluation fails; the batch
holds exactly the entries for 1 and 3 and `total_candidates = 2`. -/
theorem batch_isolates_per_candidate_failures_witness :
    ([1, 2, 3] : List Nat).Nodup ∧
    ((evaluate_all_candidates [1, 2, 3] reqA storeSkips2 oracleConst "d").candidates.map
          Prod.fst
        = (([1, 2, 3] : List Nat).filter (evalOk reqA storeSkips2 oracleConst)).map
            toString ∧
      (evaluate_all_candidates [1, 2, 3] reqA storeSkips2 oracleConst
            "d").metadata.total_candidates
        = (([1, 2, 3] : List Nat).filter (evalOk reqA storeSkips2 oracleConst)).length) ∧
    (evaluate_all_candidates [1, 2, 3] reqA storeSkips2 oracleConst "d").candidates.map
        Prod.fst = ["1", "3"] ∧
    (evaluate_all_candidates [1, 2, 3] reqA storeSkips2 oracleConst
        "d").metadata.total_candidates = 2 :=
  ⟨by decide,
   batch_isolates_per_candidate_failures [1, 2, 3] (by decide) reqA storeSkips2
     oracleConst "d",
   by decide, by decide⟩

/-- Claim C2: for every persisted batch with N candidate entries, the
ranker returns exactly N entries, a permutation of the stored values,
sorted non-increasing by affinity score.  The model is a pure function
of the persisted value, so it cannot mutate the batch it reads and
repeated calls on the same batch are definitionally identical. -/
theorem rank_total_sorted_pure (batch : EvaluationBatch) :
    (rank_candidates_by_affinity batch).length = batch.candidates.length ∧
    (rank_candidates_by_affinity batch).Perm (batch.candidates.map Prod.snd) ∧
    List.Sorted affinityGE (rank_candidates_by_affinity batch) := by
  refine ⟨?_, ?_, ?_⟩
  · rw [rank_candidates_by_affinity,
      (List.perm_insertionSort affinityGE (batch.candidates.map Prod.snd)).length_eq,
      List.length_map]
  · exact List.perm_insertionSort affinityGE (batch.candidates.map Prod.snd)
  · exact List.sorted_insertionSort affinityGE (batch.candidates.map Prod.snd)

/-- Counterexample to claim C3 as stated: a batch holding exactly the
candidates of Scenario B (1 at 0.74, 2 at 0.74, 3 at 0.91) but with
the tied entries inserted in the order 2 then 1; the ranker returns
[3, 2, 1], not the ascending-id order [3, 1, 2] the claim demands
independently of the map insertion order. -/
theorem rank_tie_counterexample :
    scenarioDescB.candidates.map (fun p => p.2.candidate_id) = [2, 1, 3] ∧
    (pcX 1 (mkRat 37 50)).affinity_score = (pcX 2 (mkRat 37 50)).affinity_score ∧
    (rank_candidates_by_affinity scenarioDescB).map PersistedCandidate.candidate_id
      = [3, 2, 1] ∧
    (rank_candidates_by_affinity scenarioDescB).map PersistedCandidate.candidate_id
      ≠ [3, 1, 2] := by
  refine ⟨by decide, by decide, by decide, by decide⟩

/-- Claim C3 amended: the sort is stable, so equal-affinity candidates
keep the relative order they have in the candidates map, which is
insertion order, not necessarily ascending id: whenever `a` sorts no
later than `b` (in particular on ties) and `a` precedes `b` among the
stored values, `a` still precedes `b` in the ranking. -/
theorem rank_tie_preserves_insertion_order (batch : EvaluationBatch)
    (a b : PersistedCandidate) (hab : affinityGE a b)
    (h : [a, b].Sublist (batch.candidates.map Prod.snd)) :
    [a, b].Sublist (rank_candidates_by_affinity batch) :=
  List.pair_sublist_insertionSort hab h

/-- Witness for amended C3 at the Scenario B batch in ascending-id
insertion order: the tied pair 1, 2 keeps its order and the full
ranking is [3, 1, 2]. -/
theorem rank_tie_preserves_insertion_order_witness :
    affinityGE (pcX 1 (mkRat 37 50)) (pcX 2 (mkRat 37 50)) ∧
    [pcX 1 (mkRat 37 50), pcX 2 (mkRat 37 50)].Sublist
      (scenarioAscB.candidates.map Prod.snd) ∧
    [pcX 1 (mkRat 37 50), pcX 2 (mkRat 37 50)].Sublist
      (rank_candidates_by_affinity scenarioAscB) ∧
    (rank_candidates_by_affinity scenarioAscB).map PersistedCandidate.candidate_id
      = [3, 1, 2] :=
  ⟨by decide, by decide,
   rank_tie_preserves_insertion_order scenarioAscB _ _ (by decide) (by decide),
   by decide⟩

/-- Counterexample to claim C4 as stated: an oracle reply with affinity
1.5 and a feature score 2.0 is returned by `evaluate_candidate`
unchanged, out of bounds; the source enforces no clamping. -/
theorem scorer_bounds_counterexample :
    evaluate_candidate 1 reqA storeOne (fun _ _ => .ok outOfBoundsEval)
        = .ok outOfBoundsEval ∧
    withinBounds outOfBoundsEval = false := by
  refine ⟨by decide, by decide⟩

/-- Claim C4 amended: `evaluate_candidate` passes the parsed oracle
reply through unchanged, so the P1 bounds hold exactly when the oracle
replies satisfy them: whenever every reply of the oracle is within
bounds, so is every evaluation the scorer produces. -/
theorem scorer_bounds_pass_through (ID : Nat) (requirements : Requirements)
    (store : CandidateStore) (oracle : Oracle)
    (hOracle : ∀ text req ev, oracle text req = .ok ev → withinBounds ev = true)
    (ev : CandidateEvaluation)
    (h : evaluate_candidate ID requirements store oracle = .ok ev) :
    withinBounds ev = true := by
  obtain ⟨-, ho⟩ := (evaluate_candidate_ok_iff ID requirements store oracle ev).mp h
  exact hOracle _ _ _ ho

/-- Witness for amended C4 at an in-bounds oracle. -/
theorem scorer_bounds_pass_through_witness : withinBounds goodEval = true :=
  scorer_bounds_pass_through 1 reqA storeOne (fun _ _ => .ok goodEval)
    (fun _ _ ev h => by injection h with h2; rw [← h2]; decide)
    goodEval (by decide)

/-- Counterexample to claim C5 as stated: an oracle reply scored as in
Scenario A but reporting affinity 0.1 is returned unchanged, 0.64 away
from the weighted mean 0.74 of its own feature scores; the source
never recomputes the mean. -/
theorem affinity_mean_counterexample :
    evaluate_candidate 7 reqA storeOne (fun _ _ => .ok inconsistentEval)
        = .ok inconsistentEval ∧
    weightedMean inconsistentEval.feature_scores = mkRat 37 50 ∧
    inconsistentEval.affinity_score = mkRat 1 10 ∧
    ¬ |inconsistentEval.affinity_score - weightedMean inconsistentEval.feature_scores|
        ≤ mkRat 1 1000000 := by
  have hwm : weightedMean inconsistentEval.feature_scores = mkRat 37 50 := by
    simp [weightedMean, inconsistentEval, Rat.mkRat_eq_divInt, Rat.divInt_eq_div]
    norm_num
  have habs :
      |inconsistentEval.affinity_score - weightedMean inconsistentEval.feature_scores|
        = mkRat 16 25 := by
    rw [hwm]
    have hsub : inconsistentEval.affinity_score - mkRat 37 50 = -(mkRat 16 25) := by
      simp [inconsistentEval, Rat.mkRat_eq_divInt, Rat.divInt_eq_div]
      norm_num
    rw [hsub, abs_neg, abs_of_nonneg (by decide : (0 : ℚ) ≤ mkRat 16 25)]
  refine ⟨by decide, hwm, by decide, ?_⟩
  rw [habs]
  decide

/-- Claim C5 amended: the affinity score is the oracle-reported value
passed through unchanged, so P2 holds exactly when the oracle computes
it: whenever the oracle reports the weighted mean of its own feature
scores, every produced evaluation is within the 1e-6 tolerance of the
weighted mean; and the Scenario A scores have weighted mean 0.74. -/
theorem affinity_mean_conditional (ID : Nat) (requirements : Requirements)
    (store : CandidateStore) (oracle : Oracle)
    (hOracle : ∀ text req ev, oracle text req = .ok ev →
        ev.affinity_score = weightedMean ev.feature_scores)
    (ev : CandidateEvaluation)
    (h : evaluate_candidate ID requirements store oracle = .ok ev) :
    |ev.affinity_score - weightedMean ev.feature_scores| ≤ mkRat 1 1000000 ∧
    weightedMean [⟨"Python", mkRat 3 5, mkRat 9 10⟩, ⟨"Leadership", mkRat 2 5, mkRat 1 2⟩]
      = mkRat 37 50 := by
  constructor
  · obtain ⟨-, ho⟩ := (evaluate_candidate_ok_iff ID requirements store oracle ev).mp h
    rw [hOracle _ _ _ ho, sub_self, abs_zero]
    decide
  · simp [weightedMean, Rat.mkRat_eq_divInt, Rat.divInt_eq_div]
    norm_num

/-- Witness for amended C5 at the Scenario A reply. -/
theorem affinity_mean_conditional_witness :
    |scenarioAEval.affinity_score - weightedMean scenarioAEval.feature_scores|
        ≤ mkRat 1 1000000 ∧
    weightedMean [⟨"Python", mkRat 3 5, mkRat 9 10⟩, ⟨"Leadership", mkRat 2 5, mkRat 1 2⟩]
      = mkRat 37 50 :=
  affinity_mean_conditional 7 reqA storeOne (fun _ _ => .ok scenarioAEval)
    (fun _ _ ev h => by
      injection h with h2
      rw [← h2]
      show mkRat 37 50 = weightedMean scenarioAEval.feature_scores
      simp [weightedMean, scenarioAEval, Rat.mkRat_eq_divInt, Rat.divInt_eq_div]
      norm_num)
    scenarioAEval (by decide)

/-- Claim C6: `evaluate_candidate` fails with the no-documents error
exactly when the candidate directory is absent or contains zero
recognized files; and for the absent directory 99, the batch for [99]
has an empty candidates map and `total_candidates = 0` instead of a
propagated failure (the batch function is total). -/
theorem no_documents_error_iff :
    (∀ (ID : Nat) (requirements : Requirements) (store : CandidateStore) (oracle : Oracle),
      evaluate_candidate ID requirements store oracle
          = .error (.noDocuments (candidateDirName ID)) ↔
        (store ID = none ∨
          ∃ entries, store ID = some entries ∧
            (entries.all fun e => !recognizedEntry e) = true)) ∧
    (evaluate_all_candidates [99] reqA (fun _ => none) oracleConst "d").candidates = [] ∧
    (evaluate_all_candidates [99] reqA (fun _ => none)
        oracleConst "d").metadata.total_candidates = 0 := by
  refine ⟨?_, by decide, by decide⟩
  intro ID requirements store oracle
  rw [evaluate_candidate_noDocs_iff]
  cases hstore : store ID with
  | none => simp [scan_candidate_documents]
  | some es =>
    rw [scan_some_spec]
    simp [List.isEmpty_iff, List.filterMap_eq_nil_iff, entryDoc_eq_none_iff,
      List.all_eq_true]

/-- Claim C7: the per-file loaders are total by type, and when reading
or parsing raises they return the inline error string as the content;
consequently a corrupt document never aborts the scan: the scan of any
listing yields exactly one content entry per recognized file, whatever
the read outcomes. -/
theorem loaders_total_isolate_failures :
    (∀ name msg : String,
      load_pdf_text name (.error msg) = "Error reading PDF " ++ name ++ ": " ++ msg ∧
      load_json_text name (.error msg) = "Error reading JSON " ++ name ++ ": " ++ msg ∧
      load_text_file name (.error msg)
        = "Error reading text file " ++ name ++ ": " ++ msg) ∧
    (∀ entries : List FsEntry,
      (scan_candidate_documents (some entries)).all_content.length
        = (entries.filter recognizedEntry).length) := by
  constructor
  · exact fun name msg => ⟨rfl, rfl, rfl⟩
  · intro entries
    rw [scan_some_spec]
    exact filterMap_entryDoc_length entries

/-- Claim C8, evaluated at the failing input: on a job-requirements
document carrying the weights only under `weights` (the shape
`save_job_analysis` writes; no `weights_dict` key),
`run_candidate_evaluation` stops with the no-weights error before
evaluating anyone, for every such weights value and candidate list,
while `run_full_pipeline` reads `weights` directly and proceeds. -/
theorem runner_requires_weights_dict :
    (∀ (wopt : Option (List (String × ℚ))) (ids : List Nat) (store : CandidateStore)
        (oracle : Oracle) (date : String),
      run_candidate_evaluation ⟨wopt, none⟩ ids store oracle date = .error noWeightsMsg) ∧
    run_candidate_evaluation jaWeightsOnly [1] storeSkips2 oracleConst "d"
        = .error noWeightsMsg ∧
    (run_full_pipeline jaWeightsOnly [1] storeSkips2 oracleConst "d").isOk = true := by
  refine ⟨fun wopt ids store oracle date => rfl, rfl, by decide⟩

/-- Counterexample to claim C9 as stated: the same two readable text
files enumerated in the two possible orders produce different
evaluator-ready text blobs, so the concatenation is not sorted into a
canonical order. -/
theorem blob_order_counterexample :
    [entBeta, entAlpha] = [entAlpha, entBeta].reverse ∧
    format_candidate_information (scan_candidate_documents (some [entAlpha, entBeta]))
      ≠ format_candidate_information (scan_candidate_documents (some [entBeta, entAlpha])) := by
  refine ⟨rfl, by decide⟩

/-- Claim C9 amended: the blob is deterministic only relative to the
enumeration order the filesystem happens to produce: the scan keeps
each recognized file in enumeration order within its type group and
applies no sorting, and the blob handed to the oracle is a function of
those per-type lists. -/
theorem blob_follows_enumeration_order (entries : List FsEntry) :
    scan_candidate_documents (some entries) =
      ⟨entries.filterMap entryPdf, entries.filterMap entryJson,
       entries.filterMap entryText, entries.filterMap entryDoc⟩ ∧
    format_candidate_information (scan_candidate_documents (some entries)) =
      format_candidate_information
        ⟨entries.filterMap entryPdf, entries.filterMap entryJson,
         entries.filterMap entryText, entries.filterMap entryDoc⟩ :=
  ⟨scan_some_spec entries, by rw [scan_some_spec]⟩

/-- Claim C10: every batch the evaluator produces is internally
consistent: every key of the candidates map is the string form of the
stored candidate_id field of its record, and `total_candidates` equals
the number of entries of the candidates map. -/
theorem batch_internal_consistency (candidate_ids : List Nat) (requirements : Requirements)
    (store : CandidateStore) (oracle : Oracle) (evaluation_date : String) :
    ((evaluate_all_candidates candidate_ids requirements store oracle
          evaluation_date).candidates.all fun p => p.1 == toString p.2.candidate_id)
        = true ∧
    (evaluate_all_candidates candidate_ids requirements store oracle
          evaluation_date).metadata.total_candidates
      = (evaluate_all_candidates candidate_ids requirements store oracle
          evaluation_date).candidates.length := by
  constructor
  · rw [List.all_eq_true]
    intro p hp
    simp only [evaluate_all_candidates, List.mem_map] at hp
    obtain ⟨q, -, rfl⟩ := hp
    simp [persistCandidate]
  · simp [evaluate_all_candidates]

end GlobalAI
